import Mathlib

/-!
Verification of the libltc-rs LTC (Linear Timecode) codec binding.

The repository wraps the C library libltc: the Rust sources under `src/`
(`src/lib.rs`, `src/api/frame.rs`, `src/api/encoder.rs`) hold the safe
wrappers, while the arithmetic and codec routines (`ltc_frame_to_time`,
`ltc_time_to_frame`, `ltc_frame_increment`, `ltc_decoder_read`, ...) live in
the C library, whose source is not part of the repository.  Wrapper logic is
embedded directly from the Rust source; routines of the C library are
modelled from the specification, each marked `Modelled from the spec:` in its
doc comment.
-/

namespace Libltc

/-- SMPTE timecode value: date fields, time fields, frame number and a
timezone code (the typed API stores a 6-byte timezone string; we model the
code it encodes).  All fields are non-negative integers. -/
structure SMPTETimecode where
  years : Nat
  months : Nat
  days : Nat
  hours : Nat
  minutes : Nat
  seconds : Nat
  frame : Nat
  timezone : Nat
  deriving DecidableEq

/-- Binary group flags: bitset over USE_DATE, USE_PARITY, REVERSE_PHASE. -/
structure LtcBgFlags where
  useDate : Bool
  useParity : Bool
  reversePhase : Bool
  deriving DecidableEq

/-- Enumerated TV standard variants (src/lib.rs lines 45-50). -/
inductive LTCTVStandard where
  | ltctv_525_60
  | ltctv_625_50
  | ltctv_1125_60
  | ltctv_film_24
  deriving DecidableEq

/-- Frames per second implied by each standard (30, 25, 30, 24). -/
def LTCTVStandard.fps : LTCTVStandard → Nat
  | .ltctv_525_60 => 30
  | .ltctv_625_50 => 25
  | .ltctv_1125_60 => 30
  | .ltctv_film_24 => 24

/-- Whether the standard is of the drop-frame (30fps) family, for which
drop-frame numbering applies. -/
def LTCTVStandard.isDropFrame : LTCTVStandard → Bool
  | .ltctv_525_60 => true
  | .ltctv_625_50 => false
  | .ltctv_1125_60 => true
  | .ltctv_film_24 => false

/-- Raw 80-bit LTC frame, by bit group: BCD timecode digits (8 fields),
drop-frame and colour-frame flags, the biphase-mark phase-correction
(parity) bit, binary group flags BGF0-2, 32 user bits (8 nibbles) and the
16-bit sync word. -/
structure LTCFrame where
  frame_units : Nat
  frame_tens : Nat
  dfbit : Nat
  col_frame : Nat
  secs_units : Nat
  secs_tens : Nat
  parity_bit : Nat
  mins_units : Nat
  mins_tens : Nat
  bgf0 : Nat
  hours_units : Nat
  hours_tens : Nat
  bgf1 : Nat
  bgf2 : Nat
  user1 : Nat
  user2 : Nat
  user3 : Nat
  user4 : Nat
  user5 : Nat
  user6 : Nat
  user7 : Nat
  user8 : Nat
  sync_word : Nat
  deriving DecidableEq

/-- The all-zero frame: contents of `raw::LTCFrame::default()`, the
zero-initialized value boxed by the typed `Default for LTCFrame`
(src/api/frame.rs lines 93-100). -/
def LTCFrame.zero : LTCFrame :=
  ⟨0, 0, 0, 0, 0, 0, 0, 0, 0, 0, 0, 0, 0, 0, 0, 0, 0, 0, 0, 0, 0, 0, 0⟩

/-- The fixed sync-word pattern 0x3FFD marking the frame boundary. -/
def syncWordPattern : Nat := 0x3FFD

/-- Modelled from the spec: `ltc_frame_reset` of the C library initialises a
frame to all-zero fields with the fixed 0x3FFD sync-word pattern set (the
sync word "exactly defines frame boundary"). -/
def ltc_frame_reset : LTCFrame :=
  { LTCFrame.zero with sync_word := syncWordPattern }

/-- Number of set bits of a natural number. -/
def countOnes : Nat → Nat
  | 0 => 0
  | n + 1 => (n + 1) % 2 + countOnes ((n + 1) / 2)
decreasing_by exact Nat.div_lt_self (Nat.succ_pos n) (by omega)

/-- Total count of set bits in the 80-bit frame outside the parity bit. -/
def LTCFrame.bitsOutsideParity (f : LTCFrame) : Nat :=
  countOnes f.frame_units + countOnes f.frame_tens + countOnes f.dfbit +
  countOnes f.col_frame + countOnes f.secs_units + countOnes f.secs_tens +
  countOnes f.mins_units + countOnes f.mins_tens + countOnes f.bgf0 +
  countOnes f.hours_units + countOnes f.hours_tens + countOnes f.bgf1 +
  countOnes f.bgf2 + countOnes f.user1 + countOnes f.user2 +
  countOnes f.user3 + countOnes f.user4 + countOnes f.user5 +
  countOnes f.user6 + countOnes f.user7 + countOnes f.user8 +
  countOnes f.sync_word

/-- Modelled from the spec: `ltc_time_to_frame` of the C library sets the BCD
timecode digits, sets the drop-frame flag when the standard implies
drop-frame, encodes the date (and timezone code) into the user bits when
USE_DATE is set, and computes the even parity bit when USE_PARITY is set and
USE_DATE is clear (date and parity are mutually exclusive uses, selected by
flags). -/
def ltc_time_to_frame (tc : SMPTETimecode) (standard : LTCTVStandard)
    (flags : LtcBgFlags) : LTCFrame :=
  let base := ltc_frame_reset
  let withTime : LTCFrame :=
    { base with
      frame_units := tc.frame % 10
      frame_tens := tc.frame / 10
      secs_units := tc.seconds % 10
      secs_tens := tc.seconds / 10
      mins_units := tc.minutes % 10
      mins_tens := tc.minutes / 10
      hours_units := tc.hours % 10
      hours_tens := tc.hours / 10
      dfbit := if standard.isDropFrame then 1 else 0
      bgf0 := if flags.useDate then 1 else 0 }
  let withDate : LTCFrame :=
    if flags.useDate then
      { withTime with
        user1 := tc.days % 10
        user2 := tc.days / 10
        user3 := tc.months % 10
        user4 := tc.months / 10
        user5 := tc.years % 10
        user6 := tc.years / 10
        user7 := tc.timezone % 16
        user8 := tc.timezone / 16 }
    else withTime
  if flags.useParity && !flags.useDate then
    { withDate with parity_bit := withDate.bitsOutsideParity % 2 }
  else withDate

/-- Modelled from the spec: `ltc_frame_to_time` of the C library extracts the
BCD timecode digits, and decodes the date fields and timezone code from the
user bits only when USE_DATE is set (otherwise years/months/days are zero).
Pure, total function. -/
def ltc_frame_to_time (f : LTCFrame) (flags : LtcBgFlags) : SMPTETimecode :=
  { hours := f.hours_units + 10 * f.hours_tens
    minutes := f.mins_units + 10 * f.mins_tens
    seconds := f.secs_units + 10 * f.secs_tens
    frame := f.frame_units + 10 * f.frame_tens
    years := if flags.useDate then f.user5 + 10 * f.user6 else 0
    months := if flags.useDate then f.user3 + 10 * f.user4 else 0
    days := if flags.useDate then f.user1 + 10 * f.user2 else 0
    timezone := if flags.useDate then f.user7 + 16 * f.user8 else 0 }

/-- Wrapper `LTCFrame::to_timecode` (src/api/frame.rs lines 153-167): builds
a default timecode and lets `ltc_frame_to_time` fill it, reading the frame
only; paired with the unchanged frame to reflect the `&self` receiver. -/
def LTCFrame.to_timecode (f : LTCFrame) (flags : LtcBgFlags) :
    SMPTETimecode × LTCFrame :=
  (ltc_frame_to_time f flags, f)

/-- Wrapper `LTCFrame::from_timecode` (src/api/frame.rs lines 169-188):
allocates a fresh reset frame and lets `ltc_time_to_frame` fill it. -/
def LTCFrame.from_timecode (tc : SMPTETimecode) (standard : LTCTVStandard)
    (flags : LtcBgFlags) : LTCFrame :=
  ltc_time_to_frame tc standard flags

/-- SMPTETimecode field bounds for a given standard: time fields in range,
frame below the standard's fps, date fields two-digit calendar values,
timezone code one byte. -/
def validTimecode (tc : SMPTETimecode) (standard : LTCTVStandard) : Prop :=
  tc.hours < 24 ∧ tc.minutes < 60 ∧ tc.seconds < 60 ∧
  tc.frame < standard.fps ∧ tc.years ≤ 99 ∧ tc.months ≤ 12 ∧
  tc.days ≤ 31 ∧ tc.timezone < 256

instance (tc : SMPTETimecode) (standard : LTCTVStandard) :
    Decidable (validTimecode tc standard) := by
  unfold validTimecode; infer_instance

/-- Time value embedded in a frame's BCD digit fields. -/
structure TimeVal where
  hours : Nat
  mins : Nat
  secs : Nat
  frame : Nat
  deriving DecidableEq

/-- First admissible frame number of a second: drop-frame standards skip
frame values {0,1} at the start (second 0) of each minute except minutes
divisible by 10. -/
def startFrame (drop : Bool) (m s : Nat) : Nat :=
  if drop = true ∧ s = 0 ∧ m % 10 ≠ 0 then 2 else 0

/-- Modelled from the spec: the timecode advance of `ltc_frame_increment` —
one frame forward, carrying into seconds/minutes/hours and honouring the
drop-frame skip; the flag reports a day wrap. -/
def incTime (fps : Nat) (drop : Bool) (t : TimeVal) : TimeVal × Bool :=
  if t.frame + 1 < fps then (⟨t.hours, t.mins, t.secs, t.frame + 1⟩, false)
  else if t.secs + 1 < 60 then (⟨t.hours, t.mins, t.secs + 1, 0⟩, false)
  else if t.mins + 1 < 60 then
    (⟨t.hours, t.mins + 1, 0, startFrame drop (t.mins + 1) 0⟩, false)
  else if t.hours + 1 < 24 then (⟨t.hours + 1, 0, 0, 0⟩, false)
  else (⟨0, 0, 0, 0⟩, true)

/-- Modelled from the spec: the timecode step of `ltc_frame_decrement` — the
symmetric inverse, borrowing across rollovers in the same way; the flag
reports a day borrow. -/
def decTime (fps : Nat) (drop : Bool) (t : TimeVal) : TimeVal × Bool :=
  if startFrame drop t.mins t.secs < t.frame then
    (⟨t.hours, t.mins, t.secs, t.frame - 1⟩, false)
  else if 0 < t.secs then (⟨t.hours, t.mins, t.secs - 1, fps - 1⟩, false)
  else if 0 < t.mins then (⟨t.hours, t.mins - 1, 59, fps - 1⟩, false)
  else if 0 < t.hours then (⟨t.hours - 1, 59, 59, fps - 1⟩, false)
  else (⟨23, 59, 59, fps - 1⟩, true)

/-- Timecode value read from the frame's BCD digit pairs. -/
def LTCFrame.timeVal (f : LTCFrame) : TimeVal :=
  ⟨f.hours_units + 10 * f.hours_tens, f.mins_units + 10 * f.mins_tens,
   f.secs_units + 10 * f.secs_tens, f.frame_units + 10 * f.frame_tens⟩

/-- Timecode value written back into the frame's BCD digit pairs; all other
bit groups are untouched. -/
def LTCFrame.writeTimeVal (f : LTCFrame) (t : TimeVal) : LTCFrame :=
  { f with
    hours_units := t.hours % 10, hours_tens := t.hours / 10
    mins_units := t.mins % 10, mins_tens := t.mins / 10
    secs_units := t.secs % 10, secs_tens := t.secs / 10
    frame_units := t.frame % 10, frame_tens := t.frame / 10 }

/-- Modelled from the spec: `ltc_frame_increment` of the C library advances
the embedded timecode by one frame and returns 1 when the timecode wrapped a
day, 0 otherwise. -/
def ltc_frame_increment (f : LTCFrame) (fps : Nat) (standard : LTCTVStandard)
    (_flags : LtcBgFlags) : LTCFrame × Int :=
  let r := incTime fps standard.isDropFrame f.timeVal
  (f.writeTimeVal r.1, if r.2 then 1 else 0)

/-- Modelled from the spec: `ltc_frame_decrement` of the C library steps the
embedded timecode one frame back and returns 1 when the timecode borrowed
across a day, 0 otherwise. -/
def ltc_frame_decrement (f : LTCFrame) (fps : Nat) (standard : LTCTVStandard)
    (_flags : LtcBgFlags) : LTCFrame × Int :=
  let r := decTime fps standard.isDropFrame f.timeVal
  (f.writeTimeVal r.1, if r.2 then 1 else 0)

/-- Wrap indicator of `LTCFrame::increment`/`decrement` in the typed API. -/
inductive TimecodeWasWrapped where
  | no
  | yes
  deriving DecidableEq

/-- Error returned when the raw arithmetic routine yields an unrecognized
status code. -/
inductive TimecodeError where
  | invalidReturn
  deriving DecidableEq

/-- Status-code dispatch of `LTCFrame::increment`/`decrement`
(src/api/frame.rs lines 218-222 and 235-239): 0 maps to Ok(No), 1 to
Ok(Yes), anything else to Err(InvalidReturn). -/
def wrapReturnCode (c : Int) : Except TimecodeError TimecodeWasWrapped :=
  if c = 0 then .ok .no
  else if c = 1 then .ok .yes
  else .error .invalidReturn

/-- Wrapper `LTCFrame::increment` (src/api/frame.rs lines 208-223): calls
the raw routine on the owned frame and dispatches on its status code. -/
def LTCFrame.increment (f : LTCFrame) (fps : Nat) (standard : LTCTVStandard)
    (flags : LtcBgFlags) :
    Except TimecodeError TimecodeWasWrapped × LTCFrame :=
  let r := ltc_frame_increment f fps standard flags
  (wrapReturnCode r.2, r.1)

/-- Wrapper `LTCFrame::decrement` (src/api/frame.rs lines 225-240): calls
the raw routine on the owned frame and dispatches on its status code. -/
def LTCFrame.decrement (f : LTCFrame) (fps : Nat) (standard : LTCTVStandard)
    (flags : LtcBgFlags) :
    Except TimecodeError TimecodeWasWrapped × LTCFrame :=
  let r := ltc_frame_decrement f fps standard flags
  (wrapReturnCode r.2, r.1)

/-- The frame's BCD digit pairs are canonical: every units nibble is a
single decimal digit. -/
def LTCFrame.canonicalDigits (f : LTCFrame) : Prop :=
  f.frame_units < 10 ∧ f.secs_units < 10 ∧ f.mins_units < 10 ∧
  f.hours_units < 10

instance (f : LTCFrame) : Decidable f.canonicalDigits := by
  unfold LTCFrame.canonicalDigits; infer_instance

/-- Time value within bounds for the given fps and drop-frame setting. -/
def validTimeVal (fps : Nat) (drop : Bool) (t : TimeVal) : Prop :=
  t.hours < 24 ∧ t.mins < 60 ∧ t.secs < 60 ∧ t.frame < fps ∧
  startFrame drop t.mins t.secs ≤ t.frame

instance (fps : Nat) (drop : Bool) (t : TimeVal) :
    Decidable (validTimeVal fps drop t) := by
  unfold validTimeVal; infer_instance

/-- Sample type of the codec buffers (8-bit unsigned in the example CLI);
modelled as an integer. -/
def SampleType := Int

instance : DecidableEq SampleType :=
  inferInstanceAs (DecidableEq Int)

instance : OfNat SampleType 0 := ⟨(0 : Int)⟩
instance : OfNat SampleType 1 := ⟨(1 : Int)⟩

/-- Raw decoded-frame record `raw::LTCFrameExt`: the embedded 80-bit frame
plus provenance metadata (sample offsets, direction, signal level, envelope
extrema and per-bit-cell timing measurements).  The `f32`/`f64` metadata
fields are modelled as rationals. -/
structure LTCFrameExt where
  ltc : LTCFrame
  off_start : Int
  off_end : Int
  reverse : Int
  volume : Rat
  sample_min : Int
  sample_max : Int
  biphase_tics : List Rat
  deriving DecidableEq

/-- Zero-initialised `LTCFrameExt`, as built by the flat `LTCDecoder::read`
before the raw call fills it (src/lib.rs lines 182-187). -/
def LTCFrameExt.init : LTCFrameExt :=
  ⟨ltc_frame_reset, 0, 0, 0, 0, 0, 0, []⟩

/-- Setter `LTCFrameExt::set_off_start` (src/api/frame.rs lines 36-40). -/
def LTCFrameExt.set_off_start (e : LTCFrameExt) (v : Int) : LTCFrameExt :=
  { e with off_start := v }

/-- Setter `LTCFrameExt::set_off_end` (src/api/frame.rs lines 44-48). -/
def LTCFrameExt.set_off_end (e : LTCFrameExt) (v : Int) : LTCFrameExt :=
  { e with off_end := v }

/-- Getter `LTCFrameExt::reverse` (src/api/frame.rs lines 49-51): true when
the stored flag is non-zero. -/
def LTCFrameExt.reverseFlag (e : LTCFrameExt) : Bool :=
  e.reverse != 0

/-- Setter `LTCFrameExt::set_reverse` (src/api/frame.rs lines 52-56):
stores 1 for true and 0 for false. -/
def LTCFrameExt.set_reverse (e : LTCFrameExt) (b : Bool) : LTCFrameExt :=
  { e with reverse := if b then 1 else 0 }

/-- Setter `LTCFrameExt::set_biphase_tics` (src/api/frame.rs lines 60-64). -/
def LTCFrameExt.set_biphase_tics (e : LTCFrameExt) (v : List Rat) :
    LTCFrameExt :=
  { e with biphase_tics := v }

/-- Setter `LTCFrameExt::set_sample_min` (src/api/frame.rs lines 68-72). -/
def LTCFrameExt.set_sample_min (e : LTCFrameExt) (v : Int) : LTCFrameExt :=
  { e with sample_min := v }

/-- Setter `LTCFrameExt::set_sample_max` (src/api/frame.rs lines 76-80). -/
def LTCFrameExt.set_sample_max (e : LTCFrameExt) (v : Int) : LTCFrameExt :=
  { e with sample_max := v }

/-- Setter `LTCFrameExt::set_volume` (src/api/frame.rs lines 84-88). -/
def LTCFrameExt.set_volume (e : LTCFrameExt) (v : Rat) : LTCFrameExt :=
  { e with volume := v }

/-- Decoder state: the bounded queue of decoded frames (oldest first) and
its fixed capacity, set at construction. -/
structure LTCDecoder where
  queue : List LTCFrameExt
  queue_len : Nat

/-- Modelled from the spec: `ltc_decoder_read` of the C library pops the
oldest ready frame, returning status 1 and the frame, or status 0 leaving
the output frame untouched when the queue is empty; it never blocks. -/
def ltc_decoder_read (d : LTCDecoder) :
    Int × LTCFrameExt × LTCDecoder :=
  match d.queue with
  | [] => (0, LTCFrameExt.init, d)
  | f :: rest => (1, f, { d with queue := rest })

/-- Wrapper `LTCDecoder::read` (src/lib.rs lines 181-194): calls the raw
read and returns None exactly when the raw status is 0, Some of the filled
frame otherwise. -/
def LTCDecoder.read (d : LTCDecoder) : Option LTCFrameExt × LTCDecoder :=
  let r := ltc_decoder_read d
  if r.1 = 0 then (none, r.2.2) else (some r.2.1, r.2.2)

/-- Repeatedly calling `read` until it yields None, collecting the frames. -/
def LTCDecoder.drain (d : LTCDecoder) : List LTCFrameExt :=
  go d.queue.length d
where
  go : Nat → LTCDecoder → List LTCFrameExt
    | 0, _ => []
    | n + 1, d =>
      match d.read with
      | (none, _) => []
      | (some f, d') => f :: go n d'

/-- Modelled from the spec: the FrameQueue overflow policy — when the queue
is full, the oldest unread frame is dropped to make room for the newest. -/
def queuePush (cap : Nat) (q : List LTCFrameExt) (f : LTCFrameExt) :
    List LTCFrameExt :=
  if q.length < cap then q ++ [f] else q.tail ++ [f]

/-- The decoder pushing one completed frame onto its queue. -/
def LTCDecoder.pushFrame (d : LTCDecoder) (f : LTCFrameExt) : LTCDecoder :=
  { d with queue := queuePush d.queue_len d.queue f }

/-- Encoder errors (src error module, per the wrappers in
src/api/encoder.rs). -/
inductive LTCEncoderError where
  | CreateError
  | ReinitError
  | BufferSizeError
  | VolumeError
  | EncodeError
  deriving DecidableEq

/-- Encoder configuration state: sample rate, fps, standard, flags, volume
in dBFS, filter rise time and the output buffer size parameters.  The
`f64` quantities are modelled as rationals. -/
structure LTCEncoder where
  sample_rate : Rat
  fps : Rat
  standard : LTCTVStandard
  flags : LtcBgFlags
  volume : Rat
  filter_rise_time : Rat
  bufsize : Rat
  deriving DecidableEq

/-- Modelled from the spec: `ltc_encoder_set_volume` of the C library —
valid range strictly negative-or-zero dBFS; a positive value would overflow
the sample representation and yields status -1 with no mutation. -/
def ltc_encoder_set_volume (e : LTCEncoder) (dbfs : Rat) :
    Int × LTCEncoder :=
  if dbfs ≤ 0 then (0, { e with volume := dbfs }) else (-1, e)

/-- Wrapper `LTCEncoder::set_volume` (src/api/encoder.rs lines 195-202):
status 0 maps to Ok, anything else to Err(VolumeError). -/
def LTCEncoder.set_volume (e : LTCEncoder) (dbfs : Rat) :
    Except LTCEncoderError Unit × LTCEncoder :=
  let r := ltc_encoder_set_volume e dbfs
  if r.1 = 0 then (.ok (), r.2) else (.error .VolumeError, r.2)

/-- Modelled from the spec: `ltc_encoder_set_buffersize` of the C library —
recomputes the output buffer size from sample rate and fps; non-positive
parameters are invalid and yield status -1 with no mutation. -/
def ltc_encoder_set_buffersize (e : LTCEncoder) (sr fps : Rat) :
    Int × LTCEncoder :=
  if 0 < sr ∧ 0 < fps then (0, { e with bufsize := sr / fps + 1 })
  else (-1, e)

/-- Wrapper `LTCEncoder::set_bufsize` (src/api/encoder.rs lines 181-189):
status 0 maps to Ok, anything else to Err(BufferSizeError). -/
def LTCEncoder.set_bufsize (e : LTCEncoder) (sr fps : Rat) :
    Except LTCEncoderError Unit × LTCEncoder :=
  let r := ltc_encoder_set_buffersize e sr fps
  if r.1 = 0 then (.ok (), r.2) else (.error .BufferSizeError, r.2)

/-- Modelled from the spec: `ltc_encoder_reinit` of the C library —
atomically reconfigures sample rate, fps, standard and flags; non-positive
rate parameters are invalid and yield status -1 with no mutation. -/
def ltc_encoder_reinit (e : LTCEncoder) (sr fps : Rat)
    (standard : LTCTVStandard) (flags : LtcBgFlags) : Int × LTCEncoder :=
  if 0 < sr ∧ 0 < fps then
    (0, { e with sample_rate := sr, fps := fps, standard := standard,
                 flags := flags })
  else (-1, e)

/-- Wrapper `LTCEncoder::reinit` (src/api/encoder.rs lines 152-173):
status 0 maps to Ok, anything else to Err(ReinitError). -/
def LTCEncoder.reinit (e : LTCEncoder) (sr fps : Rat)
    (standard : LTCTVStandard) (flags : LtcBgFlags) :
    Except LTCEncoderError Unit × LTCEncoder :=
  let r := ltc_encoder_reinit e sr fps standard flags
  if r.1 = 0 then (.ok (), r.2) else (.error .ReinitError, r.2)

/-- Heap model for the boxed frame wrappers: a typed-API `LTCFrameExt`
value, identified by the allocation id of its `Box<raw::LTCFrameExt>`. -/
structure PtrExt where
  alloc : Nat
  deriving DecidableEq

/-- Heap model for a typed-API `LTCFrame` value: the allocation id the
inner pointer belongs to. -/
structure PtrFrame where
  alloc : Nat
  deriving DecidableEq

/-- Drop for `LTCFrame` (src/api/frame.rs lines 102-112):
`Box::from_raw` releases the allocation the inner pointer belongs to. -/
def dropPtrFrame (p : PtrFrame) (freed : List Nat) : List Nat :=
  freed ++ [p.alloc]

/-- Drop for `LTCFrameExt` (src/api/frame.rs lines 125-135):
`Box::from_raw` releases the allocation the inner pointer belongs to. -/
def dropPtrExt (p : PtrExt) (freed : List Nat) : List Nat :=
  freed ++ [p.alloc]

/-- `LTCFrameExt::ltc` (src/api/frame.rs lines 28-32): the returned
`LTCFrame` points at the `ltc` field inside the ext's own allocation, and
the consumed `self` is dropped when the method returns. -/
def PtrExt.ltc (p : PtrExt) (freed : List Nat) : PtrFrame × List Nat :=
  (⟨p.alloc⟩, dropPtrExt p freed)

/-- Frees performed by extracting the inner frame from a decoded
`LTCFrameExt` and then dropping both values: `ltc()` consumes and drops the
ext, and the returned frame is dropped afterwards. -/
def extractThenDropBoth (p : PtrExt) : List Nat :=
  let r := p.ltc []
  dropPtrFrame r.1 r.2

/-- How many times allocation `a` is released in the free trace. -/
def freeCount (freed : List Nat) (a : Nat) : Nat :=
  freed.count a

/-- Typed-API `Default for LTCFrame` (src/api/frame.rs lines 93-100): boxes
a zero-initialized raw frame, without calling `ltc_frame_reset`. -/
def LTCFrame.typedDefault : LTCFrame := LTCFrame.zero

/-- `LTCFrame::new` (src/api/frame.rs lines 137-151 and src/lib.rs lines
54-60): boxes a zero frame and then calls `ltc_frame_reset` on it. -/
def LTCFrame.new : LTCFrame := ltc_frame_reset

/-- Flat-API `Default for LTCFrame` (src/lib.rs lines 114-118): delegates
to `LTCFrame::new`. -/
def LTCFrame.flatDefault : LTCFrame := LTCFrame.new

end Libltc

namespace Libltc

theorem inc_dec_time (fps : Nat) (drop : Bool) (t : TimeVal)
    (h : validTimeVal fps drop t) :
    decTime fps drop (incTime fps drop t).1 = (t, (incTime fps drop t).2) := by
  obtain ⟨th, tm, ts, tf⟩ := t
  obtain ⟨hh, hm, hs, hf, hst⟩ := h
  dsimp only at hh hm hs hf hst ⊢
  by_cases h1 : tf + 1 < fps
  · have e1 : incTime fps drop ⟨th, tm, ts, tf⟩ = (⟨th, tm, ts, tf + 1⟩, false) := by
      simp only [incTime]; rw [if_pos h1]
    rw [e1]
    have hsl : startFrame drop tm ts < tf + 1 := Nat.lt_succ_of_le hst
    simp only [decTime]
    rw [if_pos hsl]
    simp
  · by_cases h2 : ts + 1 < 60
    · have e1 : incTime fps drop ⟨th, tm, ts, tf⟩ = (⟨th, tm, ts + 1, 0⟩, false) := by
        simp only [incTime]; rw [if_neg h1, if_pos h2]
      rw [e1]
      simp only [decTime]
      rw [if_neg (Nat.not_lt_zero _), if_pos (Nat.succ_pos ts)]
      simp only [Prod.mk.injEq, TimeVal.mk.injEq, eq_self_iff_true, true_and, and_true]
      omega
    · by_cases h3 : tm + 1 < 60
      · have e1 : incTime fps drop ⟨th, tm, ts, tf⟩ =
            (⟨th, tm + 1, 0, startFrame drop (tm + 1) 0⟩, false) := by
          simp only [incTime]; rw [if_neg h1, if_neg h2, if_pos h3]
        rw [e1]
        simp only [decTime]
        rw [if_neg (lt_irrefl _), if_neg (lt_irrefl 0), if_pos (Nat.succ_pos tm)]
        simp only [Prod.mk.injEq, TimeVal.mk.injEq, eq_self_iff_true, true_and, and_true]
        omega
      · by_cases h4 : th + 1 < 24
        · have e1 : incTime fps drop ⟨th, tm, ts, tf⟩ = (⟨th + 1, 0, 0, 0⟩, false) := by
            simp only [incTime]; rw [if_neg h1, if_neg h2, if_neg h3, if_pos h4]
          rw [e1]
          simp only [decTime]
          rw [if_neg (Nat.not_lt_zero _), if_neg (lt_irrefl 0), if_neg (lt_irrefl 0),
            if_pos (Nat.succ_pos th)]
          simp only [Prod.mk.injEq, TimeVal.mk.injEq, eq_self_iff_true, true_and, and_true]
          omega
        · have e1 : incTime fps drop ⟨th, tm, ts, tf⟩ = (⟨0, 0, 0, 0⟩, true) := by
            simp only [incTime]; rw [if_neg h1, if_neg h2, if_neg h3, if_neg h4]
          rw [e1]
          simp only [decTime]
          rw [if_neg (Nat.not_lt_zero _), if_neg (lt_irrefl 0), if_neg (lt_irrefl 0),
            if_neg (lt_irrefl 0)]
          simp only [Prod.mk.injEq, TimeVal.mk.injEq, eq_self_iff_true, true_and, and_true]
          omega

theorem timeVal_writeTimeVal (f : LTCFrame) (t : TimeVal) :
    (f.writeTimeVal t).timeVal = t := by
  obtain ⟨th, tm, ts, tf⟩ := t
  simp only [LTCFrame.writeTimeVal, LTCFrame.timeVal, TimeVal.mk.injEq]
  omega

theorem writeTimeVal_self (f : LTCFrame) (hc : f.canonicalDigits) :
    f.writeTimeVal f.timeVal = f := by
  obtain ⟨hcf, hcs, hcm, hch⟩ := hc
  obtain ⟨a1, a2, a3, a4, a5, a6, a7, a8, a9, a10, a11, a12, a13, a14, a15,
    a16, a17, a18, a19, a20, a21, a22, a23⟩ := f
  simp only [LTCFrame.canonicalDigits] at hcf hcs hcm hch
  simp only [LTCFrame.writeTimeVal, LTCFrame.timeVal, LTCFrame.mk.injEq,
    eq_self_iff_true, true_and, and_true]
  omega

theorem writeTimeVal_writeTimeVal (f : LTCFrame) (a b : TimeVal) :
    (f.writeTimeVal a).writeTimeVal b = f.writeTimeVal b := rfl

theorem drain_go_eq (n : Nat) (d : LTCDecoder) (h : d.queue.length ≤ n) :
    LTCDecoder.drain.go n d = d.queue := by
  induction n generalizing d with
  | zero =>
    have : d.queue = [] := List.eq_nil_of_length_eq_zero (by omega)
    simp [LTCDecoder.drain.go, this]
  | succ n ih =>
    match hq : d.queue with
    | [] => simp [LTCDecoder.drain.go, LTCDecoder.read, ltc_decoder_read, hq]
    | f :: rest =>
      have : d.read = (some f, { d with queue := rest }) := by
        simp [LTCDecoder.read, ltc_decoder_read, hq]
      simp only [LTCDecoder.drain.go, this]
      rw [ih { d with queue := rest } (by simp; rw [hq] at h; simp at h; omega)]

theorem drain_eq (d : LTCDecoder) : d.drain = d.queue :=
  drain_go_eq d.queue.length d (le_refl _)

theorem length_queuePush (cap : Nat) (q : List LTCFrameExt) (x : LTCFrameExt)
    (hc : 0 < cap) (hq : q.length ≤ cap) :
    (queuePush cap q x).length ≤ cap := by
  unfold queuePush
  split_ifs with h
  · simp; omega
  · match q with
    | [] => simp at h ⊢; omega
    | hd :: tl => simp at *; omega

theorem foldl_queuePush (cap : Nat) (hc : 0 < cap) (xs : List LTCFrameExt) :
    ∀ q : List LTCFrameExt, q.length ≤ cap →
      List.foldl (queuePush cap) q xs =
        (q ++ xs).drop (q.length + xs.length - cap) := by
  induction xs with
  | nil =>
    intro q hq
    simp only [List.foldl_nil, List.append_nil, List.length_nil, Nat.add_zero]
    have h0 : q.length - cap = 0 := by omega
    rw [h0, List.drop_zero]
  | cons x rest ih =>
    intro q hq
    simp only [List.foldl_cons]
    rw [ih (queuePush cap q x) (length_queuePush cap q x hc hq)]
    unfold queuePush
    split_ifs with h
    · have hl : (q ++ [x]).length + rest.length - cap =
          q.length + (x :: rest).length - cap := by simp; omega
      rw [hl]
      simp [List.append_assoc]
    · match q with
      | [] => simp at h; omega
      | hd :: tl =>
        have hlen : tl.length + 1 = cap := by simp at hq h ⊢; omega
        have h1 : ((hd :: tl).tail ++ [x]).length + rest.length - cap =
            rest.length := by simp; omega
        have h2 : (hd :: tl).length + (x :: rest).length - cap =
            rest.length + 1 := by simp; omega
        rw [h1, h2]
        simp [List.append_assoc]

theorem foldl_pushFrame (xs : List LTCFrameExt) (d : LTCDecoder) :
    xs.foldl LTCDecoder.pushFrame d =
      ⟨List.foldl (queuePush d.queue_len) d.queue xs, d.queue_len⟩ := by
  induction xs generalizing d with
  | nil => rfl
  | cons x rest ih =>
    simp only [List.foldl_cons]
    rw [ih]
    rfl

end Libltc

namespace Libltc

/-- Counterexample to claim C1 as stated: the timecode with years = 1 (all
other fields zero) is within the bounds of the 625/50 standard, yet with
USE_DATE clear the round trip from_timecode then to_timecode does not return
it field-for-field — the date is simply not encoded in the frame. -/
theorem c1_roundtrip_counterexample :
    validTimecode ⟨1, 0, 0, 0, 0, 0, 0, 0⟩ .ltctv_625_50 ∧
    (LTCFrame.to_timecode
        (LTCFrame.from_timecode ⟨1, 0, 0, 0, 0, 0, 0, 0⟩ .ltctv_625_50
          ⟨false, false, false⟩)
        ⟨false, false, false⟩).1 ≠ ⟨1, 0, 0, 0, 0, 0, 0, 0⟩ := by
  decide

/-- Claim C1 (amended): for every valid SMPTETimecode within the bounds of a
given standard and any fixed USE_DATE/USE_PARITY flag setting, from_timecode
followed by to_timecode preserves the time fields
(hours/minutes/seconds/frame); the result equals the original field-for-field
when USE_DATE is set, or when the date fields and timezone of the original
are zero (with USE_DATE clear the date is not carried by the frame). -/
theorem c1_timecode_roundtrip (standard : LTCTVStandard) (flags : LtcBgFlags)
    (tc : SMPTETimecode) (hv : validTimecode tc standard) :
    ((LTCFrame.to_timecode (LTCFrame.from_timecode tc standard flags)
        flags).1.hours = tc.hours ∧
      (LTCFrame.to_timecode (LTCFrame.from_timecode tc standard flags)
        flags).1.minutes = tc.minutes ∧
      (LTCFrame.to_timecode (LTCFrame.from_timecode tc standard flags)
        flags).1.seconds = tc.seconds ∧
      (LTCFrame.to_timecode (LTCFrame.from_timecode tc standard flags)
        flags).1.frame = tc.frame) ∧
    (flags.useDate = true ∨
        (tc.years = 0 ∧ tc.months = 0 ∧ tc.days = 0 ∧ tc.timezone = 0) →
      (LTCFrame.to_timecode (LTCFrame.from_timecode tc standard flags)
        flags).1 = tc) := by
  obtain ⟨ty, tmo, td, th, tmi, ts, tf, tz⟩ := tc
  obtain ⟨hh, hm, hs, hf, hy, hmo, hd2, htz⟩ := hv
  by_cases hd : flags.useDate
  · simp only [LTCFrame.to_timecode, LTCFrame.from_timecode, ltc_time_to_frame,
      ltc_frame_to_time, hd, if_true, Bool.not_true, Bool.and_false, if_false,
      Bool.false_eq_true, SMPTETimecode.mk.injEq]
    constructor
    · refine ⟨by omega, by omega, by omega, by omega⟩
    · intro _
      refine ⟨by omega, by omega, by omega, by omega, by omega, by omega,
        by omega, by omega⟩
  · simp only [Bool.not_eq_true] at hd
    by_cases hp : flags.useParity
    · simp only [LTCFrame.to_timecode, LTCFrame.from_timecode, ltc_time_to_frame,
        ltc_frame_to_time, hd, hp, Bool.not_false, Bool.and_true, if_true,
        Bool.false_eq_true, if_false, SMPTETimecode.mk.injEq]
      constructor
      · refine ⟨by omega, by omega, by omega, by omega⟩
      · rintro (h | ⟨h1, h2, h3, h4⟩)
        · simp at h
        · refine ⟨by omega, by omega, by omega, by omega, by omega, by omega,
            by omega, by omega⟩
    · simp only [Bool.not_eq_true] at hp
      simp only [LTCFrame.to_timecode, LTCFrame.from_timecode, ltc_time_to_frame,
        ltc_frame_to_time, hd, hp, Bool.false_and, if_false,
        Bool.false_eq_true, SMPTETimecode.mk.injEq]
      constructor
      · refine ⟨by omega, by omega, by omega, by omega⟩
      · rintro (h | ⟨h1, h2, h3, h4⟩)
        · simp at h
        · refine ⟨by omega, by omega, by omega, by omega, by omega, by omega,
            by omega, by omega⟩

/-- Witness for C1 at a concrete maximal timecode with USE_DATE set. -/
theorem c1_timecode_roundtrip_witness :
    (LTCFrame.to_timecode
        (LTCFrame.from_timecode ⟨24, 12, 31, 23, 59, 59, 29, 130⟩ .ltctv_525_60
          ⟨true, false, false⟩)
        ⟨true, false, false⟩).1 = ⟨24, 12, 31, 23, 59, 59, 29, 130⟩ :=
  (c1_timecode_roundtrip .ltctv_525_60 ⟨true, false, false⟩
    ⟨24, 12, 31, 23, 59, 59, 29, 130⟩ (by decide)).2 (Or.inl rfl)

end Libltc

namespace Libltc

/-- Counterexample to claim C2 as stated: a frame whose frame-units nibble
holds the non-BCD value 15 is a perfectly formed 80-bit pattern, yet
increment followed by decrement (same fps/standard/flags) re-encodes the
digits canonically and does not restore the original bit pattern. -/
theorem c2_inverse_counterexample :
    ((({ ltc_frame_reset with frame_units := 15 } : LTCFrame).increment 25
          .ltctv_625_50 ⟨false, false, false⟩).2.decrement 25 .ltctv_625_50
        ⟨false, false, false⟩).2 ≠
      ({ ltc_frame_reset with frame_units := 15 } : LTCFrame) := by
  decide

/-- Claim C2 (amended): for every LTCFrame whose BCD digits are canonical
and whose embedded timecode lies within the fps/standard bounds (including
the drop-frame constraint), increment then decrement with the same
fps/standard/flags restores the original 80-bit frame pattern exactly, and
the wrap indicator returned by the inverse decrement equals the one returned
by the increment (a day wrap on increment is matched by a day borrow on the
decrement). -/
theorem c2_increment_decrement_inverse (f : LTCFrame) (fps : Nat)
    (standard : LTCTVStandard) (flags : LtcBgFlags) (hc : f.canonicalDigits)
    (hv : validTimeVal fps standard.isDropFrame f.timeVal) :
    ((f.increment fps standard flags).2.decrement fps standard flags).2 = f ∧
    ((f.increment fps standard flags).2.decrement fps standard flags).1 =
      (f.increment fps standard flags).1 := by
  have key := inc_dec_time fps standard.isDropFrame f.timeVal hv
  simp only [LTCFrame.increment, LTCFrame.decrement, ltc_frame_increment,
    ltc_frame_decrement, timeVal_writeTimeVal, writeTimeVal_writeTimeVal, key]
  exact ⟨writeTimeVal_self f hc, trivial⟩

/-- Witness for C2 at the reset frame at 25 fps on the 625/50 standard. -/
theorem c2_increment_decrement_inverse_witness :
    ((LTCFrame.new.increment 25 .ltctv_625_50
          ⟨false, false, false⟩).2.decrement 25 .ltctv_625_50
        ⟨false, false, false⟩).2 = LTCFrame.new ∧
    ((LTCFrame.new.increment 25 .ltctv_625_50
          ⟨false, false, false⟩).2.decrement 25 .ltctv_625_50
        ⟨false, false, false⟩).1 =
      (LTCFrame.new.increment 25 .ltctv_625_50 ⟨false, false, false⟩).1 :=
  c2_increment_decrement_inverse LTCFrame.new 25 .ltctv_625_50
    ⟨false, false, false⟩ (by decide) (by decide)

/-- Claim C3: for every decoder state, read returns None exactly when the
frame queue is empty (leaving the decoder unchanged), and otherwise returns
Some of the oldest ready frame and removes it from the queue; the function
is total, so the call never blocks. -/
theorem c3_decoder_read (d : LTCDecoder) :
    ((d.read).1 = none ↔ d.queue = []) ∧
    ((d.read).1 = none → (d.read).2 = d) ∧
    (∀ f rest, d.queue = f :: rest →
      d.read = (some f, { d with queue := rest })) := by
  match hq : d.queue with
  | [] =>
    refine ⟨by simp [LTCDecoder.read, ltc_decoder_read, hq], ?_, ?_⟩
    · intro _; simp [LTCDecoder.read, ltc_decoder_read, hq]
    · intro f rest hfr; exact absurd hfr (by simp)
  | g :: gs =>
    refine ⟨by simp [LTCDecoder.read, ltc_decoder_read, hq], ?_, ?_⟩
    · intro hnone
      exact absurd hnone (by simp [LTCDecoder.read, ltc_decoder_read, hq])
    · intro f rest hfr
      injection hfr with h1 h2
      subst h1; subst h2
      simp [LTCDecoder.read, ltc_decoder_read, hq]

/-- Witness for C3 on a one-element queue. -/
theorem c3_decoder_read_witness :
    LTCDecoder.read ⟨[LTCFrameExt.init], 32⟩ =
      (some LTCFrameExt.init, ⟨[], 32⟩) :=
  (c3_decoder_read ⟨[LTCFrameExt.init], 32⟩).2.2 LTCFrameExt.init [] rfl

/-- Claim C4: increment (and symmetrically decrement) returns an error
exactly when the raw status code is neither of the recognized wrap
indicators 0 and 1; for the recognized codes it returns Ok with the
corresponding TimecodeWasWrapped value; and, since the arithmetic routine
only ever reports 0 or 1, the error case never occurs in normal operation. -/
theorem c4_wrap_code_dispatch :
    (∀ c : Int, wrapReturnCode c = .error .invalidReturn ↔ ¬(c = 0 ∨ c = 1)) ∧
    wrapReturnCode 0 = .ok .no ∧ wrapReturnCode 1 = .ok .yes ∧
    (∀ (f : LTCFrame) (fps : Nat) (standard : LTCTVStandard)
        (flags : LtcBgFlags),
      ∃ w, (f.increment fps standard flags).1 = .ok w) ∧
    (∀ (f : LTCFrame) (fps : Nat) (standard : LTCTVStandard)
        (flags : LtcBgFlags),
      ∃ w, (f.decrement fps standard flags).1 = .ok w) := by
  refine ⟨?_, rfl, rfl, ?_, ?_⟩
  · intro c
    unfold wrapReturnCode
    split_ifs with h1 h2
    · simp [h1]
    · simp [h1, h2]
    · simp [h1, h2]
  · intro f fps standard flags
    simp only [LTCFrame.increment, ltc_frame_increment]
    cases hb : (incTime fps standard.isDropFrame f.timeVal).2 <;>
      simp [hb, wrapReturnCode]
  · intro f fps standard flags
    simp only [LTCFrame.decrement, ltc_frame_decrement]
    cases hb : (decTime fps standard.isDropFrame f.timeVal).2 <;>
      simp [hb, wrapReturnCode]

end Libltc

namespace Libltc

/-- Claim C5: set_volume returns Ok for every dBFS value that is negative or
zero (updating only the volume), returns an error for values that would
overflow the sample representation (positive dBFS), and on error leaves the
encoder configuration exactly as it was; the same error-and-no-mutation
behaviour holds for set_bufsize and reinit with invalid parameters. -/
theorem c5_config_no_partial_mutation (e : LTCEncoder) (dbfs sr fps : Rat) :
    (dbfs ≤ 0 → e.set_volume dbfs = (.ok (), { e with volume := dbfs })) ∧
    (0 < dbfs → e.set_volume dbfs = (.error .VolumeError, e)) ∧
    (¬(0 < sr ∧ 0 < fps) →
      e.set_bufsize sr fps = (.error .BufferSizeError, e) ∧
      (∀ standard flags,
        e.reinit sr fps standard flags = (.error .ReinitError, e))) := by
  refine ⟨?_, ?_, ?_⟩
  · intro h
    simp [LTCEncoder.set_volume, ltc_encoder_set_volume, h]
  · intro h
    have h2 : ¬dbfs ≤ 0 := by exact not_le.mpr h
    simp [LTCEncoder.set_volume, ltc_encoder_set_volume, h2]
  · intro h
    constructor
    · simp [LTCEncoder.set_bufsize, ltc_encoder_set_buffersize, h]
    · intro standard flags
      simp [LTCEncoder.reinit, ltc_encoder_reinit, h]

/-- Witness for C5 at a concrete encoder configuration: -18 dBFS is
accepted, +3 dBFS is rejected without mutation, and a negative sample rate
makes set_bufsize fail without mutation. -/
theorem c5_config_no_partial_mutation_witness :
    LTCEncoder.set_volume
        ⟨48000, 25, .ltctv_625_50, ⟨false, false, false⟩, 0, 0, 0⟩ (-18) =
      (.ok (), ⟨48000, 25, .ltctv_625_50, ⟨false, false, false⟩, -18, 0, 0⟩) ∧
    LTCEncoder.set_volume
        ⟨48000, 25, .ltctv_625_50, ⟨false, false, false⟩, 0, 0, 0⟩ 3 =
      (.error .VolumeError,
        ⟨48000, 25, .ltctv_625_50, ⟨false, false, false⟩, 0, 0, 0⟩) ∧
    LTCEncoder.set_bufsize
        ⟨48000, 25, .ltctv_625_50, ⟨false, false, false⟩, 0, 0, 0⟩ (-1) 25 =
      (.error .BufferSizeError,
        ⟨48000, 25, .ltctv_625_50, ⟨false, false, false⟩, 0, 0, 0⟩) :=
  ⟨(c5_config_no_partial_mutation _ (-18) (-1) 25).1 (by norm_num),
   (c5_config_no_partial_mutation _ 3 (-1) 25).2.1 (by norm_num),
   ((c5_config_no_partial_mutation _ 3 (-1) 25).2.2 (by norm_num)).1⟩

/-- Claim C6: for a FrameQueue of capacity c, pushing any sequence of n > c
decoded frames into an empty queue and then draining via read yields exactly
the last c frames pushed, in push order (oldest surviving frame first); the
oldest unread frame is dropped on each push to a full queue. -/
theorem c6_queue_overflow_policy (cap : Nat) (xs : List LTCFrameExt)
    (hc : 0 < cap) (hx : cap < xs.length) :
    (xs.foldl LTCDecoder.pushFrame ⟨[], cap⟩).drain =
      xs.drop (xs.length - cap) ∧
    (xs.drop (xs.length - cap)).length = cap := by
  constructor
  · rw [drain_eq, foldl_pushFrame]
    have := foldl_queuePush cap hc xs [] (by simp)
    simpa using this
  · simp
    omega

/-- Witness for C6: pushing two distinct frames through a capacity-1 queue
keeps exactly the last one. -/
theorem c6_queue_overflow_policy_witness :
    (([LTCFrameExt.init, LTCFrameExt.init.set_off_start 7].foldl
        LTCDecoder.pushFrame ⟨[], 1⟩).drain =
      [LTCFrameExt.init, LTCFrameExt.init.set_off_start 7].drop 1) ∧
    ([LTCFrameExt.init,
        LTCFrameExt.init.set_off_start 7].drop 1).length = 1 :=
  c6_queue_overflow_policy 1 [LTCFrameExt.init, LTCFrameExt.init.set_off_start 7]
    (by decide) (by decide)

/-- Claim C7: to_timecode is a pure, total function — for every frame and
flags it returns an SMPTETimecode (totality of the embedding), it leaves the
input frame unmodified, and it decodes the date fields only when USE_DATE is
set: with USE_DATE clear the years/months/days (and timezone) are zero. -/
theorem c7_to_timecode_pure_total (f : LTCFrame) (flags : LtcBgFlags) :
    (f.to_timecode flags).2 = f ∧
    (flags.useDate = false →
      (f.to_timecode flags).1.years = 0 ∧
      (f.to_timecode flags).1.months = 0 ∧
      (f.to_timecode flags).1.days = 0 ∧
      (f.to_timecode flags).1.timezone = 0) := by
  refine ⟨rfl, fun hd => ?_⟩
  simp [LTCFrame.to_timecode, ltc_frame_to_time, hd]

/-- Witness for C7 at the reset frame with USE_DATE clear. -/
theorem c7_to_timecode_pure_total_witness :
    (LTCFrame.new.to_timecode ⟨false, true, false⟩).2 = LTCFrame.new ∧
    (LTCFrame.new.to_timecode ⟨false, true, false⟩).1.years = 0 ∧
    (LTCFrame.new.to_timecode ⟨false, true, false⟩).1.months = 0 ∧
    (LTCFrame.new.to_timecode ⟨false, true, false⟩).1.days = 0 ∧
    (LTCFrame.new.to_timecode ⟨false, true, false⟩).1.timezone = 0 :=
  ⟨(c7_to_timecode_pure_total LTCFrame.new ⟨false, true, false⟩).1,
   (c7_to_timecode_pure_total LTCFrame.new ⟨false, true, false⟩).2 rfl⟩

/-- Claim C8 evaluated at the failing input: extracting the inner frame of
any decoded LTCFrameExt via ltc() and then dropping both values frees the
ext's allocation twice, not once — ltc() consumes and drops the ext (freeing
its box) while the returned LTCFrame points into that same allocation and
frees it again on drop.  This contradicts the claim (and the code's own FIX
comment in examples/decode.rs acknowledges the double free). -/
theorem c8_double_free_on_extract (p : PtrExt) :
    freeCount (extractThenDropBoth p) p.alloc = 2 := by
  simp [extractThenDropBoth, PtrExt.ltc, dropPtrExt, dropPtrFrame, freeCount]

/-- Claim C9: for every LTCFrameExt and every value, each field setter makes
the matching getter return that value while every other field — off_start,
off_end, reverse, volume, sample_min, sample_max, biphase_tics and the
embedded 80-bit frame — is unchanged. -/
theorem c9_frame_ext_setters (e : LTCFrameExt) (i j : Int) (b : Bool)
    (r : Rat) (ts : List Rat) :
    ((e.set_off_start i).off_start = i ∧
      (e.set_off_start i).off_end = e.off_end ∧
      (e.set_off_start i).reverse = e.reverse ∧
      (e.set_off_start i).volume = e.volume ∧
      (e.set_off_start i).sample_min = e.sample_min ∧
      (e.set_off_start i).sample_max = e.sample_max ∧
      (e.set_off_start i).biphase_tics = e.biphase_tics ∧
      (e.set_off_start i).ltc = e.ltc) ∧
    ((e.set_off_end i).off_end = i ∧
      (e.set_off_end i).off_start = e.off_start ∧
      (e.set_off_end i).reverse = e.reverse ∧
      (e.set_off_end i).volume = e.volume ∧
      (e.set_off_end i).sample_min = e.sample_min ∧
      (e.set_off_end i).sample_max = e.sample_max ∧
      (e.set_off_end i).biphase_tics = e.biphase_tics ∧
      (e.set_off_end i).ltc = e.ltc) ∧
    ((e.set_reverse b).reverseFlag = b ∧
      (e.set_reverse b).off_start = e.off_start ∧
      (e.set_reverse b).off_end = e.off_end ∧
      (e.set_reverse b).volume = e.volume ∧
      (e.set_reverse b).sample_min = e.sample_min ∧
      (e.set_reverse b).sample_max = e.sample_max ∧
      (e.set_reverse b).biphase_tics = e.biphase_tics ∧
      (e.set_reverse b).ltc = e.ltc) ∧
    ((e.set_volume r).volume = r ∧
      (e.set_volume r).off_start = e.off_start ∧
      (e.set_volume r).off_end = e.off_end ∧
      (e.set_volume r).reverse = e.reverse ∧
      (e.set_volume r).sample_min = e.sample_min ∧
      (e.set_volume r).sample_max = e.sample_max ∧
      (e.set_volume r).biphase_tics = e.biphase_tics ∧
      (e.set_volume r).ltc = e.ltc) ∧
    ((e.set_sample_min j).sample_min = j ∧
      (e.set_sample_min j).off_start = e.off_start ∧
      (e.set_sample_min j).off_end = e.off_end ∧
      (e.set_sample_min j).reverse = e.reverse ∧
      (e.set_sample_min j).volume = e.volume ∧
      (e.set_sample_min j).sample_max = e.sample_max ∧
      (e.set_sample_min j).biphase_tics = e.biphase_tics ∧
      (e.set_sample_min j).ltc = e.ltc) ∧
    ((e.set_sample_max j).sample_max = j ∧
      (e.set_sample_max j).off_start = e.off_start ∧
      (e.set_sample_max j).off_end = e.off_end ∧
      (e.set_sample_max j).reverse = e.reverse ∧
      (e.set_sample_max j).volume = e.volume ∧
      (e.set_sample_max j).sample_min = e.sample_min ∧
      (e.set_sample_max j).biphase_tics = e.biphase_tics ∧
      (e.set_sample_max j).ltc = e.ltc) ∧
    ((e.set_biphase_tics ts).biphase_tics = ts ∧
      (e.set_biphase_tics ts).off_start = e.off_start ∧
      (e.set_biphase_tics ts).off_end = e.off_end ∧
      (e.set_biphase_tics ts).reverse = e.reverse ∧
      (e.set_biphase_tics ts).volume = e.volume ∧
      (e.set_biphase_tics ts).sample_min = e.sample_min ∧
      (e.set_biphase_tics ts).sample_max = e.sample_max ∧
      (e.set_biphase_tics ts).ltc = e.ltc) := by
  cases b <;>
    simp [LTCFrameExt.set_off_start, LTCFrameExt.set_off_end,
      LTCFrameExt.set_reverse, LTCFrameExt.set_volume,
      LTCFrameExt.set_sample_min, LTCFrameExt.set_sample_max,
      LTCFrameExt.set_biphase_tics, LTCFrameExt.reverseFlag]

/-- Counterexample to claim C10's leading assertion: in the typed API,
default() (the zero frame, no reset) and new() (the reset frame) do not
produce identical contents — the reset frame carries the sync word. -/
theorem c10_default_counterexample :
    LTCFrame.typedDefault ≠ LTCFrame.new := by decide

/-- Claim C10 (amended): the two constructors agree only in the flat API,
where default() delegates to new(); in the typed API default() boxes the
zero-initialized raw frame without calling ltc_frame_reset and differs from
new(), exactly because the reset frame carries the fixed 0x3FFD sync-word
pattern while the zero-default frame does not. -/
theorem c10_default_vs_new :
    LTCFrame.flatDefault = LTCFrame.new ∧
    LTCFrame.typedDefault ≠ LTCFrame.new ∧
    LTCFrame.new.sync_word = syncWordPattern ∧
    LTCFrame.typedDefault.sync_word = 0 := by decide

end Libltc
